import Mathlib

/-!
# Venafi issuer: credential resolution and client construction

A shallow embedding of `pkg/issuer/venafi/venafi.go` (`configForIssuer`,
`NewVenafi`) and the properties of its specification.

Go values are modelled as follows.

* A Go `string` is an immutable sequence of bytes, a `[]byte` is a sequence of
  bytes, and the conversion `string(b)` keeps the bytes.
* A function returning `(*T, error)` returns a pair of options, `none` being
  the `nil` pointer resp. the `nil` error.
* The collaborators of the package (the secret lister, `vcert.NewClient`, the
  event recorder) are parameters; the recorder is the list of the events
  recorded so far.
* For the properties about the calls themselves (how many lookups, whether the
  client factory is called, what happens to the store) the two functions are
  given a second time with the state of the collaborators passed along, and
  are shown to return what the first embedding returns.
-/

set_option autoImplicit false

namespace venafi

/-! ## Go strings, byte slices and errors -/

/-- One byte. -/
abbrev Byte := Fin 256

/-- A Go `string`: an immutable sequence of bytes. -/
abbrev GoString := List Byte

/-- A Go `[]byte`. The nil slice and the empty slice are both `[]`: the code
only takes `len` of a slice and converts it to a string, and neither operation
tells them apart. -/
abbrev ByteSlice := List Byte

/-- The bytes of a source literal. All literals of the package are ASCII, for
which the byte of a character is its code point. -/
def ascii (s : String) : GoString :=
  s.toList.map (fun c => ⟨c.toNat % 256, Nat.mod_lt _ (by decide)⟩)

/-- The Go conversion `string(b)` of a byte slice: the same bytes. -/
def string (b : ByteSlice) : GoString := b

/-- A Go map `map[string][]byte`: `none` at a key that is not in the map. The
nil map has no key. -/
abbrev DataMap := GoString → Option ByteSlice

/-- The Go index expression `m[k]`: the zero value (the nil slice) at a key
that is not in the map. -/
def DataMap.index (m : DataMap) (k : GoString) : ByteSlice :=
  (m k).getD []

/-- A non-nil Go `error` value. `errorString` is what `fmt.Errorf` builds from
a format without the wrapping verb; `foreign` is any error value of a
collaborator, with its dynamic type and its text. -/
inductive GoError where
  | errorString (text : GoString)
  | foreign (dynType : GoString) (text : GoString)
  deriving DecidableEq

/-- The method `Error()` of an error value. -/
def GoError.Error : GoError → GoString
  | .errorString text => text
  | .foreign _ text => text

/-- The call `fmt.Sprintf(fmt, err)` for a format that is the text `pre`
followed by one verb `%v` (or `%s`) and a non-nil error `err`: the verb prints
`err.Error()`. -/
def SprintfErr (pre : GoString) (err : GoError) : GoString :=
  pre ++ err.Error

/-- The call `fmt.Sprintf(fmt, s)` for a format that is the text `pre` followed
by one verb `%s` and a string `s`. -/
def SprintfStr (pre : GoString) (s : GoString) : GoString :=
  pre ++ s

/-- The call `fmt.Errorf(fmt, err)` for a format ending in its only verb `%v`. -/
def ErrorfErr (pre : GoString) (err : GoError) : GoError :=
  .errorString (SprintfErr pre err)

/-- The call `fmt.Errorf(fmt, s)` for a format ending in its only verb `%s`. -/
def ErrorfStr (pre : GoString) (s : GoString) : GoError :=
  .errorString (SprintfStr pre s)

/-! ## Constants of the package -/

def tppUsernameKey : GoString := ascii "username"

def tppPasswordKey : GoString := ascii "password"

def defaultAPIKeyKey : GoString := ascii "api-key"

/-! ## The issuer resource (package `cmapi`) -/

/-- Modelled from the spec: the type declarations of package `cmapi` are not
part of the sources. A `SecretRef` is a pointer to a secret: `Name` is
required, `Key` is optional and is the empty string when unset. -/
structure SecretRef where
  Name : GoString
  Key : GoString

/-- Modelled from the spec: the `TPPConfig` block, `url`, `credentialsRef` and
the optional `caBundle` (nil when unset). -/
structure VenafiTPP where
  URL : GoString
  CredentialsRef : SecretRef
  CABundle : ByteSlice

/-- Modelled from the spec: the `CloudConfig` block, `url` and
`apiKeySecretRef`. -/
structure VenafiCloud where
  URL : GoString
  APIKeySecretRef : SecretRef

/-- Modelled from the spec: the issuer specification of the `venafi`
sub-object, the shared fields `zone` and `verbose` and the two optional blocks
(`none` is the nil pointer). -/
structure VenafiIssuer where
  Zone : GoString
  Verbose : Bool
  TPP : Option VenafiTPP
  Cloud : Option VenafiCloud

/-- Modelled from the spec: the part of `cmapi.IssuerSpec` the package reads.
The `Venafi` pointer is not nil: the constructor is registered for issuers of
type Venafi. -/
structure IssuerSpec where
  Venafi : VenafiIssuer

/-- Modelled from the spec: an issuer resource behind the interface
`cmapi.GenericIssuer`, its kind, namespace, name and specification. -/
structure GenericIssuer where
  Kind : GoString
  Namespace : GoString
  Name : GoString
  Spec : IssuerSpec

/-- The method `GetSpec()` of an issuer. -/
def GenericIssuer.GetSpec (iss : GenericIssuer) : IssuerSpec := iss.Spec

/-! ## Secrets and the secret lister (packages `corev1`, `corelisters`) -/

/-- A secret, `corev1.Secret`: its `Data` map. -/
structure Secret where
  Data : DataMap

/-- The secret-lookup capability `corelisters.SecretLister`:
`lister ns name` is `lister.Secrets(ns).Get(name)`, a secret or the error of
the lookup (not found, or an error of the backend). -/
abbrev SecretLister := GoString → GoString → Except GoError Secret

/-! ## The client configuration (packages `endpoint`, `vcert`) -/

/-- The enumeration `endpoint.ConnectorType`. -/
inductive ConnectorType where
  | ConnectorTypeUndefined
  | ConnectorTypeFake
  | ConnectorTypeCloud
  | ConnectorTypeTPP
  deriving DecidableEq

/-- The struct `endpoint.Authentication`; a field the code does not set has
its zero value, the empty string. -/
structure Authentication where
  User : GoString := []
  Password : GoString := []
  APIKey : GoString := []
  deriving DecidableEq

/-- The fields of `vcert.Config` the package sets; a field the code does not
set has its zero value. `Credentials` is a pointer to a fresh struct. -/
structure Config where
  ConnectorType : venafi.ConnectorType := .ConnectorTypeUndefined
  BaseUrl : GoString := []
  Zone : GoString := []
  LogVerbose : Bool := false
  ConnectionTrust : GoString := []
  Credentials : Option Authentication := none
  deriving DecidableEq

/-! ## configForIssuer -/

/-- The function `configForIssuer`: convert a Venafi issuer into a client
configuration. The result is the pair `(*vcert.Config, error)`. -/
def configForIssuer (iss : GenericIssuer) (secretsLister : SecretLister)
    (resourceNamespace : GoString) : Option Config × Option GoError :=
  let venCfg := iss.GetSpec.Venafi
  match venCfg.TPP, venCfg.Cloud with
  | some tpp, _ =>
    match secretsLister resourceNamespace tpp.CredentialsRef.Name with
    | .error err =>
      (none, some (ErrorfErr (ascii "error loading TPP credentials: ") err))
    | .ok tppSecret =>
      let username := tppSecret.Data.index tppUsernameKey
      let password := tppSecret.Data.index tppPasswordKey
      let caBundle : GoString :=
        if tpp.CABundle.length > 0 then string tpp.CABundle else ascii ""
      (some {
        ConnectorType := .ConnectorTypeTPP
        BaseUrl := tpp.URL
        Zone := venCfg.Zone
        LogVerbose := venCfg.Verbose
        ConnectionTrust := caBundle
        Credentials := some {
          User := string username
          Password := string password } }, none)
  | none, some cloud =>
    match secretsLister resourceNamespace cloud.APIKeySecretRef.Name with
    | .error err =>
      (none, some (ErrorfErr (ascii "error loading TPP credentials: ") err))
    | .ok cloudSecret =>
      let k : GoString :=
        if cloud.APIKeySecretRef.Key ≠ ascii "" then cloud.APIKeySecretRef.Key
        else defaultAPIKeyKey
      let apiKey := cloudSecret.Data.index k
      (some {
        ConnectorType := .ConnectorTypeCloud
        BaseUrl := cloud.URL
        Zone := venCfg.Zone
        LogVerbose := venCfg.Verbose
        Credentials := some { APIKey := string apiKey } }, none)
  | none, none =>
    (none, some (.errorString (ascii "neither Venafi Cloud or TPP configuration found")))

/-! ## NewVenafi -/

/-- One call of `Recorder.Eventf`: the object, the event type, the reason and
the formatted message. -/
structure Event where
  object : GenericIssuer
  eventtype : GoString
  reason : GoString
  message : GoString

/-- The constant `corev1.EventTypeWarning`. -/
def EventTypeWarning : GoString := ascii "Warning"

/-- The constant `corev1.EventTypeNormal`. -/
def EventTypeNormal : GoString := ascii "Normal"

/-- The part of `controller.Context` the package uses, apart from the
recorder: `SecretsLister` is
`ctx.KubeSharedInformerFactory.Core().V1().Secrets().Lister()` and
`ResourceNamespace` is `ctx.IssuerOptions.ResourceNamespace`. -/
structure Context where
  SecretsLister : SecretLister
  ResourceNamespace : GenericIssuer → GoString

/-- The call `ctx.Recorder.Eventf(object, eventtype, reason, messageFmt, err)`
for a format that is `pre` followed by the verb `%v`, on the recorder that has
recorded `events`: one more event. -/
def Eventf (events : List Event) (object : GenericIssuer) (eventtype reason : GoString)
    (pre : GoString) (err : GoError) : List Event :=
  events ++ [{ object := object, eventtype := eventtype, reason := reason,
               message := SprintfErr pre err }]

/-- The struct `Venafi`, the issuer handle. `Connector` is the type of the
values of the interface `endpoint.Connector`. -/
structure Venafi (Connector : Type) where
  issuer : GenericIssuer
  Context : venafi.Context
  resourceNamespace : GoString
  secretsLister : SecretLister
  client : Connector

/-- The function `NewVenafi`. `NewClient` is `vcert.NewClient`, called on the
pointer `cfg`; `events` are the events the recorder of `ctx` holds at the call.
The result is the pair `(issuer.Interface, error)` and the events the recorder
holds at the return. -/
def NewVenafi {Connector : Type} (NewClient : Option Config → Except GoError Connector)
    (ctx : Context) (issuer : GenericIssuer) (events : List Event) :
    (Option (Venafi Connector) × Option GoError) × List Event :=
  let secretsLister := ctx.SecretsLister
  let resourceNamespace := ctx.ResourceNamespace issuer
  let (cfg, err) := configForIssuer issuer secretsLister resourceNamespace
  match err with
  | some err =>
    ((none, some err),
      Eventf events issuer EventTypeWarning (ascii "FailedInit")
        (ascii "Failed to initialise issuer: ") err)
  | none =>
    match NewClient cfg with
    | .error err =>
      ((none, some (ErrorfStr (ascii "error creating Venafi client: ") err.Error)),
        Eventf events issuer EventTypeWarning (ascii "FailedInit")
          (ascii "Failed to create Venafi client: ") err)
    | .ok client =>
      ((some {
        issuer := issuer
        Context := ctx
        resourceNamespace := resourceNamespace
        secretsLister := secretsLister
        client := client }, none), events)

/-! ## The calls on the collaborators

The same two functions with the state of the collaborators passed along: the
content of the secret store and the record of the calls made on the secret
lister, on `vcert.NewClient` and on the recorder, in the order of the calls.
-/

/-- One call on a collaborator: `secretsLister.Secrets(ns).Get(name)`,
`vcert.NewClient(cfg)`, or `ctx.Recorder.Eventf` with the event it records. -/
inductive Call where
  | Get (ns name : GoString)
  | NewClient (cfg : Option Config)
  | Eventf (event : Event)

/-- The state of the collaborators: `secrets` is the content of the secret
store, the result the store gives for each namespace and name, and `calls` are
the calls made so far, oldest first. -/
structure World where
  secrets : SecretLister
  calls : List Call

/-- The call `secretsLister.Secrets(ns).Get(name)` in a world: the result the
store gives, and the world with the call recorded. The lister reads. -/
def World.Get (w : World) (ns name : GoString) : Except GoError Secret × World :=
  (w.secrets ns name, { w with calls := w.calls ++ [.Get ns name] })

/-- The call `vcert.NewClient(cfg)` in a world. -/
def World.NewClient {Connector : Type} (w : World)
    (NewClient : Option Config → Except GoError Connector) (cfg : Option Config) :
    Except GoError Connector × World :=
  (NewClient cfg, { w with calls := w.calls ++ [.NewClient cfg] })

/-- The call `ctx.Recorder.Eventf(object, eventtype, reason, messageFmt, err)`
in a world, for a format that is `pre` followed by the verb `%v`. -/
def World.Eventf (w : World) (object : GenericIssuer) (eventtype reason : GoString)
    (pre : GoString) (err : GoError) : World :=
  { w with calls := w.calls ++ [.Eventf { object := object, eventtype := eventtype,
                                          reason := reason, message := SprintfErr pre err }] }

/-- The function `configForIssuer` in a world: its lister argument is the
handle on the store of `w`. The result is the pair `(*vcert.Config, error)`
and the world at the return. -/
def configForIssuerIn (iss : GenericIssuer) (resourceNamespace : GoString) (w : World) :
    (Option Config × Option GoError) × World :=
  let venCfg := iss.GetSpec.Venafi
  match venCfg.TPP, venCfg.Cloud with
  | some tpp, _ =>
    match w.Get resourceNamespace tpp.CredentialsRef.Name with
    | (.error err, w1) =>
      ((none, some (ErrorfErr (ascii "error loading TPP credentials: ") err)), w1)
    | (.ok tppSecret, w1) =>
      let username := tppSecret.Data.index tppUsernameKey
      let password := tppSecret.Data.index tppPasswordKey
      let caBundle : GoString :=
        if tpp.CABundle.length > 0 then string tpp.CABundle else ascii ""
      ((some {
        ConnectorType := .ConnectorTypeTPP
        BaseUrl := tpp.URL
        Zone := venCfg.Zone
        LogVerbose := venCfg.Verbose
        ConnectionTrust := caBundle
        Credentials := some {
          User := string username
          Password := string password } }, none), w1)
  | none, some cloud =>
    match w.Get resourceNamespace cloud.APIKeySecretRef.Name with
    | (.error err, w1) =>
      ((none, some (ErrorfErr (ascii "error loading TPP credentials: ") err)), w1)
    | (.ok cloudSecret, w1) =>
      let k : GoString :=
        if cloud.APIKeySecretRef.Key ≠ ascii "" then cloud.APIKeySecretRef.Key
        else defaultAPIKeyKey
      let apiKey := cloudSecret.Data.index k
      ((some {
        ConnectorType := .ConnectorTypeCloud
        BaseUrl := cloud.URL
        Zone := venCfg.Zone
        LogVerbose := venCfg.Verbose
        Credentials := some { APIKey := string apiKey } }, none), w1)
  | none, none =>
    ((none, some (.errorString (ascii "neither Venafi Cloud or TPP configuration found"))), w)

/-- The function `NewVenafi` in a world: the lister of `ctx` is the handle on
the store of `w`, and the recorder of `ctx` records in `w`. The result is the
pair `(issuer.Interface, error)` and the world at the return. -/
def NewVenafiIn {Connector : Type} (NewClient : Option Config → Except GoError Connector)
    (ctx : Context) (issuer : GenericIssuer) (w : World) :
    (Option (Venafi Connector) × Option GoError) × World :=
  let secretsLister := ctx.SecretsLister
  let resourceNamespace := ctx.ResourceNamespace issuer
  let ((cfg, err), w1) := configForIssuerIn issuer resourceNamespace w
  match err with
  | some err =>
    ((none, some err),
      w1.Eventf issuer EventTypeWarning (ascii "FailedInit")
        (ascii "Failed to initialise issuer: ") err)
  | none =>
    match w1.NewClient NewClient cfg with
    | (.error err, w2) =>
      ((none, some (ErrorfStr (ascii "error creating Venafi client: ") err.Error)),
        w2.Eventf issuer EventTypeWarning (ascii "FailedInit")
          (ascii "Failed to create Venafi client: ") err)
    | (.ok client, w2) =>
      ((some {
        issuer := issuer
        Context := ctx
        resourceNamespace := resourceNamespace
        secretsLister := secretsLister
        client := client }, none), w2)

/-! ## Example issuers, secrets and collaborators -/

/-- The secret `tpp-creds`: username `alice`, password `s3cr3t`. -/
def tppCreds : Secret :=
  { Data := fun k =>
      if k = ascii "username" then some (ascii "alice")
      else if k = ascii "password" then some (ascii "s3cr3t")
      else none }

/-- The secret `cloud-key`: `api-key` is `XYZ123` and `token` is `ABC789`. -/
def cloudKey : Secret :=
  { Data := fun k =>
      if k = ascii "api-key" then some (ascii "XYZ123")
      else if k = ascii "token" then some (ascii "ABC789")
      else none }

/-- The error of a lookup of a secret that does not exist. -/
def notFound : GoError :=
  .foreign (ascii "*errors.StatusError") (ascii "secret not found")

/-- A lister over the namespace `default` holding `tpp-creds` and `cloud-key`. -/
def exampleLister : SecretLister := fun ns name =>
  if ns = ascii "default" ∧ name = ascii "tpp-creds" then .ok tppCreds
  else if ns = ascii "default" ∧ name = ascii "cloud-key" then .ok cloudKey
  else .error notFound

/-- A TPP block referring to `tpp-creds`, with a CA bundle. -/
def exampleTPP : VenafiTPP :=
  { URL := ascii "https://tpp.example.com/vedsdk"
    CredentialsRef := { Name := ascii "tpp-creds", Key := ascii "" }
    CABundle := ascii "-----BEGIN CERT...-----" }

/-- A Cloud block referring to the key `token` of `cloud-key`. -/
def exampleCloud : VenafiCloud :=
  { URL := ascii "https://api.venafi.example/v1"
    APIKeySecretRef := { Name := ascii "cloud-key", Key := ascii "token" } }

/-- An issuer of namespace `default` with the given blocks. -/
def exampleIssuer (tpp : Option VenafiTPP) (cloud : Option VenafiCloud) : GenericIssuer :=
  { Kind := ascii "Issuer", Namespace := ascii "default", Name := ascii "venafi-issuer"
    Spec := { Venafi := { Zone := ascii "devops", Verbose := true, TPP := tpp, Cloud := cloud } } }

/-- A context over `exampleLister`: the resource namespace of an issuer is its
own namespace. -/
def exampleContext : Context :=
  { SecretsLister := exampleLister, ResourceNamespace := fun issuer => issuer.Namespace }

/-- A client factory for connectors that are the base URL they talk to: it
rejects a nil config and a config with an empty base URL. -/
def exampleNewClient : Option Config → Except GoError GoString
  | none => .error (.foreign (ascii "*errors.errorString") (ascii "nil config"))
  | some cfg =>
    if cfg.BaseUrl = ascii "" then
      .error (.foreign (ascii "*errors.errorString") (ascii "empty base url"))
    else .ok cfg.BaseUrl

/-- A TPP block with an empty URL, which `exampleNewClient` rejects. -/
def emptyUrlTPP : VenafiTPP := { exampleTPP with URL := ascii "" }

/-- The config `configForIssuer` resolves for a TPP block of the given URL over
`tpp-creds`. -/
def exampleTPPConfig (url : GoString) : Config :=
  { ConnectorType := .ConnectorTypeTPP
    BaseUrl := url
    Zone := ascii "devops"
    LogVerbose := true
    ConnectionTrust := ascii "-----BEGIN CERT...-----"
    Credentials := some { User := ascii "alice", Password := ascii "s3cr3t" } }

/-- The world over the store of `exampleLister` in which no call was made. -/
def exampleWorld : World := { secrets := exampleLister, calls := [] }

/-- A secret without any key. -/
def emptySecret : Secret := { Data := fun _ => none }

/-- A lister over a store in which every secret exists and has no key. -/
def emptySecretLister : SecretLister := fun _ _ => .ok emptySecret

/-- A lister over a store that holds `tpp-creds` under every name of every
namespace. -/
def tppCredsEverywhere : SecretLister := fun _ _ => .ok tppCreds

/-- A secret that agrees with `tpp-creds` on `username` and `password` and has
one more key. -/
def tppCredsExtra : Secret :=
  { Data := fun k =>
      if k = ascii "extra" then some (ascii "ignored") else tppCreds.Data k }

/-- A secret that agrees with `cloud-key` on `token` and on no other key. -/
def cloudKeyTokenOnly : Secret :=
  { Data := fun k => if k = ascii "token" then some (ascii "ABC789") else none }

/-! ## Properties of configForIssuer -/

/-- C1: for every issuer spec in which both the TPP block and the Cloud block
are absent, every namespace and every secret lister, `configForIssuer` returns
the configuration error and no config. -/
theorem C1_neither_block_is_configuration_error (iss : GenericIssuer)
    (secretsLister : SecretLister) (resourceNamespace : GoString)
    (hTPP : iss.GetSpec.Venafi.TPP = none) (hCloud : iss.GetSpec.Venafi.Cloud = none) :
    configForIssuer iss secretsLister resourceNamespace =
      (none, some (.errorString (ascii "neither Venafi Cloud or TPP configuration found"))) := by
  simp only [configForIssuer, hTPP, hCloud]

/-- Witness of C1: the issuer with neither block gets the configuration error. -/
theorem C1_neither_block_is_configuration_error_witness :
    (exampleIssuer none none).GetSpec.Venafi.TPP = none ∧
    (exampleIssuer none none).GetSpec.Venafi.Cloud = none ∧
    configForIssuer (exampleIssuer none none) exampleLister (ascii "default") =
      (none, some (.errorString (ascii "neither Venafi Cloud or TPP configuration found"))) :=
  ⟨rfl, rfl,
    C1_neither_block_is_configuration_error (exampleIssuer none none) exampleLister
      (ascii "default") rfl rfl⟩

/-- C2: for every issuer spec with a TPP block, every namespace and every
lister whose lookup of the secret named `credentialsRef.name` in that namespace
succeeds with a secret of data `d`, `configForIssuer` returns no error and a
config with connector type TPP, base URL `spec.TPP.url`, zone `spec.zone`,
verbose `spec.verbose` and the credentials of user `string(d["username"])` and
password `string(d["password"])`. -/
theorem C2_tpp_config_fields (iss : GenericIssuer) (secretsLister : SecretLister)
    (resourceNamespace : GoString) (tpp : VenafiTPP) (secret : Secret)
    (hTPP : iss.GetSpec.Venafi.TPP = some tpp)
    (hGet : secretsLister resourceNamespace tpp.CredentialsRef.Name = .ok secret) :
    ∃ cfg : Config,
      configForIssuer iss secretsLister resourceNamespace = (some cfg, none) ∧
      cfg.ConnectorType = .ConnectorTypeTPP ∧
      cfg.BaseUrl = tpp.URL ∧
      cfg.Zone = iss.GetSpec.Venafi.Zone ∧
      cfg.LogVerbose = iss.GetSpec.Venafi.Verbose ∧
      cfg.Credentials = some
        { User := string (secret.Data.index (ascii "username"))
          Password := string (secret.Data.index (ascii "password"))
          APIKey := ascii "" } := by
  simp only [configForIssuer, hTPP, hGet]
  exact ⟨_, rfl, rfl, rfl, rfl, rfl, rfl⟩

/-- Witness of C2: the secret `tpp-creds` with username `alice` and password
`s3cr3t` gives the credentials of user `alice` and password `s3cr3t`. -/
theorem C2_tpp_config_fields_witness :
    ∃ cfg : Config,
      configForIssuer (exampleIssuer (some exampleTPP) none) exampleLister (ascii "default") =
        (some cfg, none) ∧
      cfg.ConnectorType = .ConnectorTypeTPP ∧
      cfg.BaseUrl = ascii "https://tpp.example.com/vedsdk" ∧
      cfg.Zone = ascii "devops" ∧
      cfg.LogVerbose = true ∧
      cfg.Credentials = some
        { User := ascii "alice", Password := ascii "s3cr3t", APIKey := ascii "" } :=
  C2_tpp_config_fields (exampleIssuer (some exampleTPP) none) exampleLister (ascii "default")
    exampleTPP tppCreds rfl rfl

/-- C3: for every TPP spec whose secret lookup succeeds, the `ConnectionTrust`
of the returned config is the exact string of `spec.TPP.caBundle` when the
bundle is not empty, and the empty string when the bundle is empty or unset. -/
theorem C3_tpp_trust_bundle (iss : GenericIssuer) (secretsLister : SecretLister)
    (resourceNamespace : GoString) (tpp : VenafiTPP) (secret : Secret)
    (hTPP : iss.GetSpec.Venafi.TPP = some tpp)
    (hGet : secretsLister resourceNamespace tpp.CredentialsRef.Name = .ok secret) :
    ∃ cfg : Config,
      configForIssuer iss secretsLister resourceNamespace = (some cfg, none) ∧
      (tpp.CABundle ≠ [] → cfg.ConnectionTrust = string tpp.CABundle) ∧
      (tpp.CABundle = [] → cfg.ConnectionTrust = ascii "") := by
  simp only [configForIssuer, hTPP, hGet]
  refine ⟨_, rfl, ?_, ?_⟩
  · intro hne
    have hlen : tpp.CABundle.length > 0 := List.length_pos.mpr hne
    simp only [hlen, if_true]
  · intro hnil
    simp only [hnil, List.length_nil, gt_iff_lt, lt_self_iff_false, if_false]

/-- Witness of C3: the bundle `-----BEGIN CERT...-----` is returned as it is,
and the TPP block without a bundle gets the empty string. -/
theorem C3_tpp_trust_bundle_witness :
    (∃ cfg : Config,
      configForIssuer (exampleIssuer (some exampleTPP) none) exampleLister (ascii "default") =
        (some cfg, none) ∧
      (exampleTPP.CABundle ≠ [] → cfg.ConnectionTrust = ascii "-----BEGIN CERT...-----") ∧
      (exampleTPP.CABundle = [] → cfg.ConnectionTrust = ascii "")) ∧
    (∃ cfg : Config,
      configForIssuer (exampleIssuer (some { exampleTPP with CABundle := [] }) none)
        exampleLister (ascii "default") = (some cfg, none) ∧
      (([] : ByteSlice) ≠ [] → cfg.ConnectionTrust = string []) ∧
      (([] : ByteSlice) = [] → cfg.ConnectionTrust = ascii "")) :=
  ⟨C3_tpp_trust_bundle (exampleIssuer (some exampleTPP) none) exampleLister (ascii "default")
      exampleTPP tppCreds rfl rfl,
    C3_tpp_trust_bundle (exampleIssuer (some { exampleTPP with CABundle := [] }) none)
      exampleLister (ascii "default") { exampleTPP with CABundle := [] } tppCreds rfl rfl⟩

/-- C4: for every issuer spec with no TPP block and a Cloud block whose secret
lookup succeeds with a secret of data `d`, the `APIKey` of the returned config
is `string(d[k])`, where `k` is `spec.Cloud.apiKeySecretRef.key` when that key
is not empty and `"api-key"` otherwise. -/
theorem C4_cloud_api_key (iss : GenericIssuer) (secretsLister : SecretLister)
    (resourceNamespace : GoString) (cloud : VenafiCloud) (secret : Secret)
    (hTPP : iss.GetSpec.Venafi.TPP = none)
    (hCloud : iss.GetSpec.Venafi.Cloud = some cloud)
    (hGet : secretsLister resourceNamespace cloud.APIKeySecretRef.Name = .ok secret) :
    ∃ (cfg : Config) (auth : Authentication),
      configForIssuer iss secretsLister resourceNamespace = (some cfg, none) ∧
      cfg.Credentials = some auth ∧
      (cloud.APIKeySecretRef.Key ≠ ascii "" →
        auth.APIKey = string (secret.Data.index cloud.APIKeySecretRef.Key)) ∧
      (cloud.APIKeySecretRef.Key = ascii "" →
        auth.APIKey = string (secret.Data.index (ascii "api-key"))) := by
  simp only [configForIssuer, hTPP, hCloud, hGet]
  refine ⟨_, _, rfl, rfl, ?_, ?_⟩
  · intro hne
    simp only [hne, ne_eq, not_false_eq_true, if_true]
  · intro hempty
    simp only [hempty, ne_eq, not_true_eq_false, if_false, defaultAPIKeyKey]

/-- Witness of C4: with no key override the secret `cloud-key` gives `XYZ123`,
and with the key `token` it gives `ABC789`. -/
theorem C4_cloud_api_key_witness :
    (∃ (cfg : Config) (auth : Authentication),
      configForIssuer
        (exampleIssuer none
          (some { exampleCloud with
            APIKeySecretRef := { Name := ascii "cloud-key", Key := ascii "" } }))
        exampleLister (ascii "default") = (some cfg, none) ∧
      cfg.Credentials = some auth ∧
      (ascii "" ≠ ascii "" → auth.APIKey = string (cloudKey.Data.index (ascii ""))) ∧
      (ascii "" = ascii "" → auth.APIKey = ascii "XYZ123")) ∧
    (∃ (cfg : Config) (auth : Authentication),
      configForIssuer (exampleIssuer none (some exampleCloud)) exampleLister (ascii "default") =
        (some cfg, none) ∧
      cfg.Credentials = some auth ∧
      (ascii "token" ≠ ascii "" → auth.APIKey = ascii "ABC789") ∧
      (ascii "token" = ascii "" → auth.APIKey = string (cloudKey.Data.index (ascii "api-key")))) :=
  ⟨C4_cloud_api_key
      (exampleIssuer none
        (some { exampleCloud with
          APIKeySecretRef := { Name := ascii "cloud-key", Key := ascii "" } }))
      exampleLister (ascii "default")
      { exampleCloud with APIKeySecretRef := { Name := ascii "cloud-key", Key := ascii "" } }
      cloudKey rfl rfl rfl,
    C4_cloud_api_key (exampleIssuer none (some exampleCloud)) exampleLister (ascii "default")
      exampleCloud cloudKey rfl rfl rfl⟩

/-- C5: for every issuer spec with no TPP block and a Cloud block whose secret
lookup succeeds, `configForIssuer` returns no error and a config with connector
type Cloud, base URL `spec.Cloud.url`, zone `spec.zone`, verbose
`spec.verbose`, the empty trust bundle, and credentials that carry only the API
key: user and password are empty. -/
theorem C5_cloud_config_fields (iss : GenericIssuer) (secretsLister : SecretLister)
    (resourceNamespace : GoString) (cloud : VenafiCloud) (secret : Secret)
    (hTPP : iss.GetSpec.Venafi.TPP = none)
    (hCloud : iss.GetSpec.Venafi.Cloud = some cloud)
    (hGet : secretsLister resourceNamespace cloud.APIKeySecretRef.Name = .ok secret) :
    ∃ (cfg : Config) (auth : Authentication),
      configForIssuer iss secretsLister resourceNamespace = (some cfg, none) ∧
      cfg.ConnectorType = .ConnectorTypeCloud ∧
      cfg.BaseUrl = cloud.URL ∧
      cfg.Zone = iss.GetSpec.Venafi.Zone ∧
      cfg.LogVerbose = iss.GetSpec.Venafi.Verbose ∧
      cfg.ConnectionTrust = ascii "" ∧
      cfg.Credentials = some auth ∧
      auth.User = ascii "" ∧
      auth.Password = ascii "" := by
  simp only [configForIssuer, hTPP, hCloud, hGet]
  exact ⟨_, _, rfl, rfl, rfl, rfl, rfl, rfl, rfl, rfl, rfl⟩

/-- Witness of C5: the Cloud issuer over `cloud-key`. -/
theorem C5_cloud_config_fields_witness :
    ∃ (cfg : Config) (auth : Authentication),
      configForIssuer (exampleIssuer none (some exampleCloud)) exampleLister (ascii "default") =
        (some cfg, none) ∧
      cfg.ConnectorType = .ConnectorTypeCloud ∧
      cfg.BaseUrl = ascii "https://api.venafi.example/v1" ∧
      cfg.Zone = ascii "devops" ∧
      cfg.LogVerbose = true ∧
      cfg.ConnectionTrust = ascii "" ∧
      cfg.Credentials = some auth ∧
      auth.User = ascii "" ∧
      auth.Password = ascii "" :=
  C5_cloud_config_fields (exampleIssuer none (some exampleCloud)) exampleLister (ascii "default")
    exampleCloud cloudKey rfl rfl rfl

/-- C6: for every issuer spec with a TPP block or a Cloud block, if the lookup
of the referenced secret (`credentialsRef.name` for TPP, `apiKeySecretRef.name`
for Cloud when there is no TPP block) in the given namespace fails with cause
`e`, `configForIssuer` returns no config and an error whose message is
`error loading TPP credentials: ` followed by the message of `e`, so it
contains the message of `e`; the returned error is the same expression for the
TPP and for the Cloud variant. -/
theorem C6_lookup_failure_is_wrapped (iss : GenericIssuer) (secretsLister : SecretLister)
    (resourceNamespace : GoString) (name : GoString) (e : GoError)
    (hRef : (∃ tpp, iss.GetSpec.Venafi.TPP = some tpp ∧ name = tpp.CredentialsRef.Name) ∨
      (iss.GetSpec.Venafi.TPP = none ∧
        ∃ cloud, iss.GetSpec.Venafi.Cloud = some cloud ∧ name = cloud.APIKeySecretRef.Name))
    (hGet : secretsLister resourceNamespace name = .error e) :
    ∃ err : GoError,
      configForIssuer iss secretsLister resourceNamespace = (none, some err) ∧
      err = .errorString (ascii "error loading TPP credentials: " ++ e.Error) ∧
      e.Error <:+: err.Error := by
  refine ⟨.errorString (ascii "error loading TPP credentials: " ++ e.Error), ?_, rfl,
    (List.suffix_append _ _).isInfix⟩
  rcases hRef with ⟨tpp, hTPP, hName⟩ | ⟨hTPP, cloud, hCloud, hName⟩
  · subst hName
    simp only [configForIssuer, hTPP, hGet, ErrorfErr, SprintfErr]
  · subst hName
    simp only [configForIssuer, hTPP, hCloud, hGet, ErrorfErr, SprintfErr]

/-- Witness of C6: in the namespace `other` neither `tpp-creds` nor `cloud-key`
exists, and the TPP issuer and the Cloud issuer get the same error. -/
theorem C6_lookup_failure_is_wrapped_witness :
    (∃ err : GoError,
      configForIssuer (exampleIssuer (some exampleTPP) none) exampleLister (ascii "other") =
        (none, some err) ∧
      err = .errorString (ascii "error loading TPP credentials: secret not found") ∧
      notFound.Error <:+: err.Error) ∧
    (∃ err : GoError,
      configForIssuer (exampleIssuer none (some exampleCloud)) exampleLister (ascii "other") =
        (none, some err) ∧
      err = .errorString (ascii "error loading TPP credentials: secret not found") ∧
      notFound.Error <:+: err.Error) :=
  ⟨C6_lookup_failure_is_wrapped (exampleIssuer (some exampleTPP) none) exampleLister
      (ascii "other") (ascii "tpp-creds") notFound (Or.inl ⟨exampleTPP, rfl, rfl⟩) rfl,
    C6_lookup_failure_is_wrapped (exampleIssuer none (some exampleCloud)) exampleLister
      (ascii "other") (ascii "cloud-key") notFound (Or.inr ⟨rfl, exampleCloud, rfl, rfl⟩) rfl⟩

/-! ## Properties of NewVenafi -/

/-- The message of the event of a failed client creation differs from the
message of the event of a failed resolution, whatever the two errors print. -/
theorem createMessage_ne_initMessage (x y : GoString) :
    ascii "Failed to create Venafi client: " ++ x ≠ ascii "Failed to initialise issuer: " ++ y := by
  intro h
  have h11 := congrArg (List.take 11) h
  rw [List.take_append_of_le_length (by decide),
    List.take_append_of_le_length (by decide)] at h11
  exact absurd h11 (by decide)

/-- C7: for every input, `NewVenafi` returns either an error and no handle, or
a handle and no error; when it returns an error the recorder holds exactly one
more event than at the call, and when it returns a handle the recorder holds
the events of the call and no other. -/
theorem C7_one_event_on_failure_none_on_success {Connector : Type}
    (NewClient : Option Config → Except GoError Connector) (ctx : Context)
    (issuer : GenericIssuer) (events : List Event) :
    ((∃ err, (NewVenafi NewClient ctx issuer events).1 = (none, some err)) ∨
      (∃ handle, (NewVenafi NewClient ctx issuer events).1 = (some handle, none))) ∧
    (∀ err, (NewVenafi NewClient ctx issuer events).1.2 = some err →
      ∃ event, (NewVenafi NewClient ctx issuer events).2 = events ++ [event]) ∧
    (∀ handle, (NewVenafi NewClient ctx issuer events).1.1 = some handle →
      (NewVenafi NewClient ctx issuer events).2 = events) := by
  rcases hcfg : configForIssuer issuer ctx.SecretsLister (ctx.ResourceNamespace issuer) with
    ⟨cfg, _ | err⟩
  · rcases hnew : NewClient cfg with err | client
    · simp [NewVenafi, hcfg, hnew, Eventf]
    · simp [NewVenafi, hcfg, hnew]
  · simp [NewVenafi, hcfg, Eventf]

/-- C8: for every input on which `configForIssuer` returns an error `e`,
`NewVenafi` returns no handle and exactly `e` as its error, and records one
event of type Warning and reason `FailedInit` whose message is
`Failed to initialise issuer: ` followed by the message of `e`. -/
theorem C8_resolution_error_is_recorded_and_returned {Connector : Type}
    (NewClient : Option Config → Except GoError Connector) (ctx : Context)
    (issuer : GenericIssuer) (events : List Event) (cfg : Option Config) (e : GoError)
    (hcfg : configForIssuer issuer ctx.SecretsLister (ctx.ResourceNamespace issuer) =
      (cfg, some e)) :
    ∃ event : Event,
      NewVenafi NewClient ctx issuer events = ((none, some e), events ++ [event]) ∧
      event.object = issuer ∧
      event.eventtype = ascii "Warning" ∧
      event.reason = ascii "FailedInit" ∧
      event.message = ascii "Failed to initialise issuer: " ++ e.Error ∧
      e.Error <:+: event.message := by
  refine ⟨{ object := issuer, eventtype := ascii "Warning", reason := ascii "FailedInit",
            message := ascii "Failed to initialise issuer: " ++ e.Error }, ?_, rfl, rfl, rfl, rfl,
    (List.suffix_append _ _).isInfix⟩
  simp only [NewVenafi, hcfg, Eventf, EventTypeWarning, SprintfErr]

/-- Witness of C8: the issuer with neither block. -/
theorem C8_resolution_error_is_recorded_and_returned_witness :
    ∃ event : Event,
      NewVenafi exampleNewClient exampleContext (exampleIssuer none none) [] =
        ((none, some (.errorString (ascii "neither Venafi Cloud or TPP configuration found"))),
          [] ++ [event]) ∧
      event.object = exampleIssuer none none ∧
      event.eventtype = ascii "Warning" ∧
      event.reason = ascii "FailedInit" ∧
      event.message = ascii "Failed to initialise issuer: " ++
        ascii "neither Venafi Cloud or TPP configuration found" ∧
      ascii "neither Venafi Cloud or TPP configuration found" <:+: event.message :=
  C8_resolution_error_is_recorded_and_returned exampleNewClient exampleContext
    (exampleIssuer none none) [] none
    (.errorString (ascii "neither Venafi Cloud or TPP configuration found")) rfl

/-- C9: for every input on which `configForIssuer` succeeds with config `c` and
`vcert.NewClient` fails on `c` with error `e`, `NewVenafi` returns no handle,
records one event of type Warning and reason `FailedInit` whose message is
`Failed to create Venafi client: ` followed by the message of `e`, a message
no resolver failure has, and returns the error whose message is
`error creating Venafi client: ` followed by the message of `e`. -/
theorem C9_client_error_is_recorded_and_wrapped {Connector : Type}
    (NewClient : Option Config → Except GoError Connector) (ctx : Context)
    (issuer : GenericIssuer) (events : List Event) (c : Config) (e : GoError)
    (hcfg : configForIssuer issuer ctx.SecretsLister (ctx.ResourceNamespace issuer) =
      (some c, none))
    (hnew : NewClient (some c) = .error e) :
    ∃ (event : Event) (err : GoError),
      NewVenafi NewClient ctx issuer events = ((none, some err), events ++ [event]) ∧
      event.object = issuer ∧
      event.eventtype = ascii "Warning" ∧
      event.reason = ascii "FailedInit" ∧
      event.message = ascii "Failed to create Venafi client: " ++ e.Error ∧
      (∀ e0 : GoError, event.message ≠ ascii "Failed to initialise issuer: " ++ e0.Error) ∧
      err = .errorString (ascii "error creating Venafi client: " ++ e.Error) ∧
      err.Error = ascii "error creating Venafi client: " ++ e.Error := by
  refine ⟨{ object := issuer, eventtype := ascii "Warning", reason := ascii "FailedInit",
            message := ascii "Failed to create Venafi client: " ++ e.Error },
    .errorString (ascii "error creating Venafi client: " ++ e.Error), ?_, rfl, rfl, rfl, rfl,
    fun e0 => createMessage_ne_initMessage e.Error e0.Error, rfl, rfl⟩
  simp only [NewVenafi, hcfg, hnew, Eventf, EventTypeWarning, SprintfErr, ErrorfStr, SprintfStr]

/-- Witness of C9: the TPP issuer with an empty URL resolves, and the client
factory rejects its config. -/
theorem C9_client_error_is_recorded_and_wrapped_witness :
    ∃ (event : Event) (err : GoError),
      NewVenafi exampleNewClient exampleContext (exampleIssuer (some emptyUrlTPP) none) [] =
        ((none, some err), [] ++ [event]) ∧
      event.object = exampleIssuer (some emptyUrlTPP) none ∧
      event.eventtype = ascii "Warning" ∧
      event.reason = ascii "FailedInit" ∧
      event.message = ascii "Failed to create Venafi client: " ++ ascii "empty base url" ∧
      (∀ e0 : GoError, event.message ≠ ascii "Failed to initialise issuer: " ++ e0.Error) ∧
      err = .errorString (ascii "error creating Venafi client: " ++ ascii "empty base url") ∧
      err.Error = ascii "error creating Venafi client: " ++ ascii "empty base url" :=
  C9_client_error_is_recorded_and_wrapped exampleNewClient exampleContext
    (exampleIssuer (some emptyUrlTPP) none) [] (exampleTPPConfig (ascii ""))
    (.foreign (ascii "*errors.errorString") (ascii "empty base url")) rfl rfl

/-- C10: for every input on which `configForIssuer` succeeds with config `c`
and `vcert.NewClient` succeeds on `c` with connector `h`, `NewVenafi` returns
no error, records no event, and returns a handle whose fields are the issuer
of the call, the resource namespace and the secret lister that were used for
the resolution, and the connector `h`. -/
theorem C10_success_returns_bound_handle {Connector : Type}
    (NewClient : Option Config → Except GoError Connector) (ctx : Context)
    (issuer : GenericIssuer) (events : List Event) (c : Config) (h : Connector)
    (hcfg : configForIssuer issuer ctx.SecretsLister (ctx.ResourceNamespace issuer) =
      (some c, none))
    (hnew : NewClient (some c) = .ok h) :
    ∃ handle : Venafi Connector,
      NewVenafi NewClient ctx issuer events = ((some handle, none), events) ∧
      handle.issuer = issuer ∧
      handle.resourceNamespace = ctx.ResourceNamespace issuer ∧
      handle.secretsLister = ctx.SecretsLister ∧
      handle.Context = ctx ∧
      handle.client = h := by
  refine ⟨{ issuer := issuer, Context := ctx, resourceNamespace := ctx.ResourceNamespace issuer,
            secretsLister := ctx.SecretsLister, client := h }, ?_, rfl, rfl, rfl, rfl, rfl⟩
  simp only [NewVenafi, hcfg, hnew]

/-- Witness of C10: the TPP issuer over `tpp-creds` gets the connector built
from its own config, the one of its base URL. -/
theorem C10_success_returns_bound_handle_witness :
    ∃ handle : Venafi GoString,
      NewVenafi exampleNewClient exampleContext (exampleIssuer (some exampleTPP) none) [] =
        ((some handle, none), []) ∧
      handle.issuer = exampleIssuer (some exampleTPP) none ∧
      handle.resourceNamespace = ascii "default" ∧
      handle.secretsLister = exampleLister ∧
      handle.Context = exampleContext ∧
      handle.client = ascii "https://tpp.example.com/vedsdk" :=
  C10_success_returns_bound_handle exampleNewClient exampleContext
    (exampleIssuer (some exampleTPP) none) []
    (exampleTPPConfig (ascii "https://tpp.example.com/vedsdk"))
    (ascii "https://tpp.example.com/vedsdk") rfl rfl

/-! ## Properties of the calls on the collaborators -/

/-- In a world, `configForIssuer` returns what it returns on the store of that
world. -/
theorem configForIssuerIn_result (iss : GenericIssuer) (resourceNamespace : GoString)
    (w : World) :
    (configForIssuerIn iss resourceNamespace w).1 =
      configForIssuer iss w.secrets resourceNamespace := by
  rcases hT : iss.GetSpec.Venafi.TPP with _ | tpp
  · rcases hC : iss.GetSpec.Venafi.Cloud with _ | cloud
    · simp only [configForIssuerIn, configForIssuer, hT, hC]
    · rcases hG : w.secrets resourceNamespace cloud.APIKeySecretRef.Name with e | secret <;>
        simp only [configForIssuerIn, configForIssuer, World.Get, hT, hC, hG]
  · rcases hG : w.secrets resourceNamespace tpp.CredentialsRef.Name with e | secret <;>
      simp only [configForIssuerIn, configForIssuer, World.Get, hT, hG]

/-- The world `configForIssuer` returns in: the store of the call, and the
calls of the call followed by the lookup of the secret of the TPP block, or of
the Cloud block when there is no TPP block, or by nothing when there is
neither. -/
theorem configForIssuerIn_world (iss : GenericIssuer) (resourceNamespace : GoString)
    (w : World) :
    (configForIssuerIn iss resourceNamespace w).2 =
      { secrets := w.secrets
        calls := w.calls ++
          match iss.GetSpec.Venafi.TPP, iss.GetSpec.Venafi.Cloud with
          | some tpp, _ => [.Get resourceNamespace tpp.CredentialsRef.Name]
          | none, some cloud => [.Get resourceNamespace cloud.APIKeySecretRef.Name]
          | none, none => [] } := by
  rcases hT : iss.GetSpec.Venafi.TPP with _ | tpp
  · rcases hC : iss.GetSpec.Venafi.Cloud with _ | cloud
    · simp only [configForIssuerIn, hT, hC, List.append_nil]
    · rcases hG : w.secrets resourceNamespace cloud.APIKeySecretRef.Name with e | secret <;>
        simp only [configForIssuerIn, World.Get, hT, hC, hG]
  · rcases hG : w.secrets resourceNamespace tpp.CredentialsRef.Name with e | secret <;>
      simp only [configForIssuerIn, World.Get, hT, hG]

/-- With a TPP block, the calls of `configForIssuer` are the lookup of
`credentialsRef.name`. -/
theorem configForIssuerIn_calls_tpp (iss : GenericIssuer) (resourceNamespace : GoString) (w : World)
    (tpp : VenafiTPP) (hTPP : iss.GetSpec.Venafi.TPP = some tpp) :
    (configForIssuerIn iss resourceNamespace w).2.calls =
      w.calls ++ [.Get resourceNamespace tpp.CredentialsRef.Name] := by
  rw [configForIssuerIn_world]
  simp only [hTPP]

/-- C16: for every input, `configForIssuer` leaves the content of the secret
store as it was, whether the lookup fails or not; with a TPP block the calls it
makes are exactly one lookup, that of `credentialsRef.name`; with no TPP block
and a Cloud block they are exactly one lookup, that of `apiKeySecretRef.name`;
with neither block it makes no call. -/
theorem C16_one_lookup_and_store_unchanged (iss : GenericIssuer)
    (resourceNamespace : GoString) (w : World) :
    (configForIssuerIn iss resourceNamespace w).2.secrets = w.secrets ∧
    (∀ tpp, iss.GetSpec.Venafi.TPP = some tpp →
      (configForIssuerIn iss resourceNamespace w).2.calls =
        w.calls ++ [.Get resourceNamespace tpp.CredentialsRef.Name]) ∧
    (∀ cloud, iss.GetSpec.Venafi.TPP = none → iss.GetSpec.Venafi.Cloud = some cloud →
      (configForIssuerIn iss resourceNamespace w).2.calls =
        w.calls ++ [.Get resourceNamespace cloud.APIKeySecretRef.Name]) ∧
    (iss.GetSpec.Venafi.TPP = none → iss.GetSpec.Venafi.Cloud = none →
      (configForIssuerIn iss resourceNamespace w).2.calls = w.calls) := by
  rw [configForIssuerIn_world]
  refine ⟨rfl, ?_, ?_, ?_⟩
  · intro tpp hT
    simp only [hT]
  · intro cloud hT hC
    simp only [hT, hC]
  · intro hT hC
    simp only [hT, hC, List.append_nil]

/-- The calls of `configForIssuer` are lookups: it makes no call on
`vcert.NewClient`. -/
theorem configForIssuerIn_calls (iss : GenericIssuer) (resourceNamespace : GoString)
    (w : World) :
    ∃ lookups : List Call,
      (configForIssuerIn iss resourceNamespace w).2.calls = w.calls ++ lookups ∧
      ∀ c, Call.NewClient c ∉ lookups := by
  rw [configForIssuerIn_world]
  refine ⟨_, rfl, ?_⟩
  intro c
  rcases iss.GetSpec.Venafi.TPP with _ | tpp
  · rcases iss.GetSpec.Venafi.Cloud with _ | cloud <;> simp
  · simp

/-- A successful `configForIssuer` has made exactly one call, a lookup in the
given namespace. -/
theorem configForIssuerIn_calls_of_ok (iss : GenericIssuer) (resourceNamespace : GoString)
    (w : World) (cfg : Option Config)
    (h : configForIssuer iss w.secrets resourceNamespace = (cfg, none)) :
    ∃ name, (configForIssuerIn iss resourceNamespace w).2.calls =
      w.calls ++ [.Get resourceNamespace name] := by
  rw [configForIssuerIn_world]
  rcases hT : iss.GetSpec.Venafi.TPP with _ | tpp
  · rcases hC : iss.GetSpec.Venafi.Cloud with _ | cloud
    · simp [configForIssuer, hT, hC] at h
    · exact ⟨cloud.APIKeySecretRef.Name, rfl⟩
  · exact ⟨tpp.CredentialsRef.Name, rfl⟩

/-- In a world whose store is the one the lister of `ctx` reads, `NewVenafi`
returns what it returns on that lister, whatever events were recorded before. -/
theorem NewVenafiIn_result {Connector : Type}
    (NewClient : Option Config → Except GoError Connector) (ctx : Context)
    (issuer : GenericIssuer) (w : World) (events : List Event)
    (hstore : w.secrets = ctx.SecretsLister) :
    (NewVenafiIn NewClient ctx issuer w).1 = (NewVenafi NewClient ctx issuer events).1 := by
  have hres := configForIssuerIn_result issuer (ctx.ResourceNamespace issuer) w
  rw [hstore] at hres
  rcases hrun : configForIssuerIn issuer (ctx.ResourceNamespace issuer) w with ⟨⟨cfg, err⟩, w1⟩
  rw [hrun] at hres
  simp only at hres
  rcases err with _ | err
  · rcases hnew : NewClient cfg with e | client
    · simp [NewVenafiIn, NewVenafi, hrun, ← hres, World.NewClient, hnew]
    · simp [NewVenafiIn, NewVenafi, hrun, ← hres, World.NewClient, hnew]
  · simp [NewVenafiIn, NewVenafi, hrun, ← hres]

/-- C11: for every input, when `configForIssuer` returns an error `NewVenafi`
makes no call on `vcert.NewClient` and returns no handle; and whenever
`NewVenafi` calls `vcert.NewClient` on a config, `configForIssuer` has returned
that config and no error, and the call comes right after the one secret lookup
of the resolution and is the only call on `vcert.NewClient`. -/
theorem C11_client_only_after_successful_resolution {Connector : Type}
    (NewClient : Option Config → Except GoError Connector) (ctx : Context)
    (issuer : GenericIssuer) (w : World) :
    ∃ made : List Call,
      (NewVenafiIn NewClient ctx issuer w).2.calls = w.calls ++ made ∧
      (∀ cfg e, configForIssuer issuer w.secrets (ctx.ResourceNamespace issuer) = (cfg, some e) →
        (∀ c, Call.NewClient c ∉ made) ∧
        (NewVenafiIn NewClient ctx issuer w).1 = (none, some e)) ∧
      (∀ c, Call.NewClient c ∈ made →
        configForIssuer issuer w.secrets (ctx.ResourceNamespace issuer) = (c, none) ∧
        ∃ name rest, made = .Get (ctx.ResourceNamespace issuer) name :: .NewClient c :: rest ∧
          ∀ c0, Call.NewClient c0 ∉ rest) := by
  have hres := configForIssuerIn_result issuer (ctx.ResourceNamespace issuer) w
  obtain ⟨lookups, hcalls, hlookups⟩ :=
    configForIssuerIn_calls issuer (ctx.ResourceNamespace issuer) w
  have hok := configForIssuerIn_calls_of_ok issuer (ctx.ResourceNamespace issuer) w
  rcases hrun : configForIssuerIn issuer (ctx.ResourceNamespace issuer) w with ⟨⟨cfg, err⟩, w1⟩
  rw [hrun] at hres hcalls hok
  simp only at hres hcalls hok
  rw [← hres] at hok ⊢
  rcases err with _ | err
  · obtain ⟨name, hname⟩ := hok cfg rfl
    rcases hnew : NewClient cfg with e | client
    · refine ⟨[.Get (ctx.ResourceNamespace issuer) name, .NewClient cfg,
        .Eventf { object := issuer, eventtype := EventTypeWarning, reason := ascii "FailedInit",
                  message := SprintfErr (ascii "Failed to create Venafi client: ") e }], ?_, ?_, ?_⟩
      · simp [NewVenafiIn, hrun, World.NewClient, World.Eventf, hnew, hname]
      · intro cfg0 e0 h0
        simp at h0
      · intro c hc
        simp at hc
        subst hc
        exact ⟨rfl, name, _, rfl, by simp⟩
    · refine ⟨[.Get (ctx.ResourceNamespace issuer) name, .NewClient cfg], ?_, ?_, ?_⟩
      · simp [NewVenafiIn, hrun, World.NewClient, hnew, hname]
      · intro cfg0 e0 h0
        simp at h0
      · intro c hc
        simp at hc
        subst hc
        exact ⟨rfl, name, _, rfl, by simp⟩
  · refine ⟨lookups ++
        [.Eventf { object := issuer, eventtype := EventTypeWarning, reason := ascii "FailedInit",
                   message := SprintfErr (ascii "Failed to initialise issuer: ") err }],
      ?_, ?_, ?_⟩
    · simp [NewVenafiIn, hrun, World.Eventf, hcalls]
    · intro cfg0 e0 h0
      simp at h0
      obtain ⟨-, rfl⟩ := h0
      refine ⟨?_, ?_⟩
      · intro c hc
        simp at hc
        exact hlookups c hc
      · simp [NewVenafiIn, hrun]
    · intro c hc
      simp at hc
      exact absurd hc (hlookups c)

/-- Witness of C11: the issuer with neither block makes one call, on the
recorder, and the TPP issuer over `tpp-creds` makes the lookup and then the
call on the client factory. -/
theorem C11_client_only_after_successful_resolution_witness :
    (∃ made : List Call,
      (NewVenafiIn exampleNewClient exampleContext (exampleIssuer none none) exampleWorld).2.calls =
        exampleWorld.calls ++ made ∧
      (∀ cfg e, configForIssuer (exampleIssuer none none) exampleWorld.secrets
          (exampleContext.ResourceNamespace (exampleIssuer none none)) = (cfg, some e) →
        (∀ c, Call.NewClient c ∉ made) ∧
        (NewVenafiIn exampleNewClient exampleContext (exampleIssuer none none) exampleWorld).1 =
          (none, some e)) ∧
      (∀ c, Call.NewClient c ∈ made →
        configForIssuer (exampleIssuer none none) exampleWorld.secrets
          (exampleContext.ResourceNamespace (exampleIssuer none none)) = (c, none) ∧
        ∃ name rest,
          made = .Get (exampleContext.ResourceNamespace (exampleIssuer none none)) name ::
            .NewClient c :: rest ∧
          ∀ c0, Call.NewClient c0 ∉ rest)) ∧
    (NewVenafiIn exampleNewClient exampleContext (exampleIssuer none none) exampleWorld).2.calls =
      [.Eventf { object := exampleIssuer none none, eventtype := ascii "Warning",
                 reason := ascii "FailedInit",
                 message := ascii "Failed to initialise issuer: " ++
                   ascii "neither Venafi Cloud or TPP configuration found" }] ∧
    (NewVenafiIn exampleNewClient exampleContext (exampleIssuer (some exampleTPP) none)
        exampleWorld).2.calls =
      [.Get (ascii "default") (ascii "tpp-creds"),
        .NewClient (some (exampleTPPConfig (ascii "https://tpp.example.com/vedsdk")))] :=
  ⟨C11_client_only_after_successful_resolution exampleNewClient exampleContext
      (exampleIssuer none none) exampleWorld, rfl, rfl⟩

/-! ## Shape, repetition and precedence -/

/-- C12: for every input, `configForIssuer` returns either a config and no
error, or an error and no config; a returned config is fully populated: its
connector type is set, its credentials are not nil, and its base URL, zone and
verbose flag are those of the spec. It returns a config exactly when the TPP
block is present and the lookup of its secret succeeds, or the TPP block is
absent, the Cloud block is present and the lookup of its secret succeeds. -/
theorem C12_config_or_error (iss : GenericIssuer) (secretsLister : SecretLister)
    (resourceNamespace : GoString) :
    ((∃ cfg : Config,
        configForIssuer iss secretsLister resourceNamespace = (some cfg, none) ∧
        cfg.ConnectorType ≠ .ConnectorTypeUndefined ∧
        cfg.Credentials ≠ none ∧
        cfg.Zone = iss.GetSpec.Venafi.Zone ∧
        cfg.LogVerbose = iss.GetSpec.Venafi.Verbose ∧
        (∀ tpp, iss.GetSpec.Venafi.TPP = some tpp → cfg.BaseUrl = tpp.URL) ∧
        (∀ cloud, iss.GetSpec.Venafi.TPP = none → iss.GetSpec.Venafi.Cloud = some cloud →
          cfg.BaseUrl = cloud.URL)) ∨
      (∃ e : GoError, configForIssuer iss secretsLister resourceNamespace = (none, some e))) ∧
    ((∃ cfg : Config, (configForIssuer iss secretsLister resourceNamespace).1 = some cfg) ↔
      ((∃ tpp secret, iss.GetSpec.Venafi.TPP = some tpp ∧
          secretsLister resourceNamespace tpp.CredentialsRef.Name = .ok secret) ∨
        (iss.GetSpec.Venafi.TPP = none ∧
          ∃ cloud secret, iss.GetSpec.Venafi.Cloud = some cloud ∧
            secretsLister resourceNamespace cloud.APIKeySecretRef.Name = .ok secret))) := by
  rcases hT : iss.GetSpec.Venafi.TPP with _ | tpp
  · rcases hC : iss.GetSpec.Venafi.Cloud with _ | cloud
    · simp [configForIssuer, hT, hC]
    · rcases hG : secretsLister resourceNamespace cloud.APIKeySecretRef.Name with e | secret <;>
        simp [configForIssuer, hT, hC, hG]
  · rcases hG : secretsLister resourceNamespace tpp.CredentialsRef.Name with e | secret <;>
      simp [configForIssuer, hT, hG]

/-- C13: for every spec, namespace and world, a second call of
`configForIssuer`, made in the world the first call returned in, returns what
the first call returned; and so does a call in any world whose secret store
has the same content. -/
theorem C13_resolve_idempotent (iss : GenericIssuer) (resourceNamespace : GoString)
    (w : World) :
    (configForIssuerIn iss resourceNamespace (configForIssuerIn iss resourceNamespace w).2).1 =
      (configForIssuerIn iss resourceNamespace w).1 ∧
    (∀ w0 : World, w0.secrets = w.secrets →
      (configForIssuerIn iss resourceNamespace w0).1 =
        (configForIssuerIn iss resourceNamespace w).1) := by
  refine ⟨?_, ?_⟩
  · rw [configForIssuerIn_result, configForIssuerIn_result, configForIssuerIn_world]
  · intro w0 h0
    rw [configForIssuerIn_result, configForIssuerIn_result, h0]

/-- C14: for every issuer spec in which both the TPP block and the Cloud block
are present, every namespace and every world, `configForIssuer` returns what
it returns for the same spec with the Cloud block removed, and returns in the
same world; the only call it makes is the lookup of `credentialsRef.name`, so
it makes no lookup of a Cloud secret of another name; and when the lookup of
the TPP secret fails it returns the error of that lookup and no config,
whatever the store holds for the Cloud block. -/
theorem C14_tpp_takes_precedence (iss : GenericIssuer) (resourceNamespace : GoString)
    (w : World) (tpp : VenafiTPP) (cloud : VenafiCloud)
    (hTPP : iss.GetSpec.Venafi.TPP = some tpp)
    (hCloud : iss.GetSpec.Venafi.Cloud = some cloud) :
    configForIssuerIn iss resourceNamespace w =
      configForIssuerIn
        { iss with Spec := { Venafi := { iss.Spec.Venafi with Cloud := none } } }
        resourceNamespace w ∧
    configForIssuer iss w.secrets resourceNamespace =
      configForIssuer
        { iss with Spec := { Venafi := { iss.Spec.Venafi with Cloud := none } } }
        w.secrets resourceNamespace ∧
    (∃ made : List Call,
      (configForIssuerIn iss resourceNamespace w).2.calls = w.calls ++ made ∧
      made = [.Get resourceNamespace tpp.CredentialsRef.Name] ∧
      (cloud.APIKeySecretRef.Name ≠ tpp.CredentialsRef.Name →
        Call.Get resourceNamespace cloud.APIKeySecretRef.Name ∉ made)) ∧
    (∀ e, w.secrets resourceNamespace tpp.CredentialsRef.Name = .error e →
      (configForIssuerIn iss resourceNamespace w).1 =
        (none, some (.errorString (ascii "error loading TPP credentials: " ++ e.Error)))) := by
  have hT : iss.Spec.Venafi.TPP = some tpp := hTPP
  have _hC : iss.Spec.Venafi.Cloud = some cloud := hCloud
  refine ⟨?_, ?_, ⟨_, (configForIssuerIn_calls_tpp iss resourceNamespace w tpp hTPP), rfl, ?_⟩, ?_⟩
  · rcases hG : w.secrets resourceNamespace tpp.CredentialsRef.Name with e | secret <;>
      simp only [configForIssuerIn, World.Get, GenericIssuer.GetSpec, hT, hG]
  · rcases hG : w.secrets resourceNamespace tpp.CredentialsRef.Name with e | secret <;>
      simp only [configForIssuer, GenericIssuer.GetSpec, hT, hG]
  · intro hne hmem
    simp only [List.mem_singleton, Call.Get.injEq, true_and] at hmem
    exact hne hmem
  · intro e hG
    simp only [configForIssuerIn, World.Get, GenericIssuer.GetSpec, hT, hG, ErrorfErr,
      SprintfErr]

/-- Witness of C14: with both blocks over `tpp-creds` and `cloud-key` the call
is that of the TPP issuer; and when the TPP block names a secret that does not
exist, the error is returned although `cloud-key` exists. -/
theorem C14_tpp_takes_precedence_witness :
    configForIssuerIn (exampleIssuer (some exampleTPP) (some exampleCloud)) (ascii "default")
        exampleWorld =
      configForIssuerIn (exampleIssuer (some exampleTPP) none) (ascii "default") exampleWorld ∧
    (configForIssuerIn (exampleIssuer (some exampleTPP) (some exampleCloud)) (ascii "default")
        exampleWorld).2.calls = [.Get (ascii "default") (ascii "tpp-creds")] ∧
    (exampleWorld.secrets (ascii "default") (ascii "cloud-key")).toBool = true ∧
    (configForIssuerIn
        (exampleIssuer
          (some { exampleTPP with CredentialsRef := { Name := ascii "missing", Key := ascii "" } })
          (some exampleCloud))
        (ascii "default") exampleWorld).1 =
      (none, some (.errorString (ascii "error loading TPP credentials: secret not found"))) :=
  ⟨(C14_tpp_takes_precedence (exampleIssuer (some exampleTPP) (some exampleCloud))
      (ascii "default") exampleWorld exampleTPP exampleCloud rfl rfl).1,
    rfl, rfl,
    (C14_tpp_takes_precedence
      (exampleIssuer
        (some { exampleTPP with CredentialsRef := { Name := ascii "missing", Key := ascii "" } })
        (some exampleCloud))
      (ascii "default") exampleWorld
      { exampleTPP with CredentialsRef := { Name := ascii "missing", Key := ascii "" } }
      exampleCloud rfl rfl).2.2.2 notFound rfl⟩

/-! ## What the result depends on -/

/-- C15: for every spec whose referenced secret exists, `configForIssuer`
succeeds; for a TPP spec the returned user is the empty string when the secret
lacks the key `username`, and the returned password is the empty string when
it lacks the key `password`; for a Cloud spec the returned API key is the empty
string when the secret lacks the selected key. -/
theorem C15_missing_keys_give_empty_strings (iss : GenericIssuer)
    (secretsLister : SecretLister) (resourceNamespace : GoString) (name : GoString)
    (secret : Secret)
    (hRef : (∃ tpp, iss.GetSpec.Venafi.TPP = some tpp ∧ name = tpp.CredentialsRef.Name) ∨
      (iss.GetSpec.Venafi.TPP = none ∧
        ∃ cloud, iss.GetSpec.Venafi.Cloud = some cloud ∧ name = cloud.APIKeySecretRef.Name))
    (hGet : secretsLister resourceNamespace name = .ok secret) :
    ∃ (cfg : Config) (auth : Authentication),
      configForIssuer iss secretsLister resourceNamespace = (some cfg, none) ∧
      cfg.Credentials = some auth ∧
      (∀ tpp, iss.GetSpec.Venafi.TPP = some tpp →
        (secret.Data (ascii "username") = none → auth.User = ascii "") ∧
        (secret.Data (ascii "password") = none → auth.Password = ascii "")) ∧
      (∀ cloud, iss.GetSpec.Venafi.TPP = none → iss.GetSpec.Venafi.Cloud = some cloud →
        (cloud.APIKeySecretRef.Key ≠ ascii "" → secret.Data cloud.APIKeySecretRef.Key = none →
          auth.APIKey = ascii "") ∧
        (cloud.APIKeySecretRef.Key = ascii "" → secret.Data (ascii "api-key") = none →
          auth.APIKey = ascii "")) := by
  rcases hRef with ⟨tpp, hT, hName⟩ | ⟨hT, cloud, hC, hName⟩
  · subst hName
    simp only [configForIssuer, hT, hGet]
    refine ⟨_, _, rfl, rfl, ?_, ?_⟩
    · intro tpp0 _
      refine ⟨?_, ?_⟩
      · intro hmiss
        simp only [tppUsernameKey, DataMap.index, hmiss, string, Option.getD_none]
        rfl
      · intro hmiss
        simp only [tppPasswordKey, DataMap.index, hmiss, string, Option.getD_none]
        rfl
    · intro cloud0 h0
      simp at h0
  · subst hName
    simp only [configForIssuer, hT, hC, hGet]
    refine ⟨_, _, rfl, rfl, ?_, ?_⟩
    · intro tpp0 h0
      simp at h0
    · intro cloud0 _ h0
      simp only [Option.some.injEq] at h0
      subst h0
      refine ⟨?_, ?_⟩
      · intro hne hmiss
        simp only [hne, ne_eq, not_false_eq_true, if_true, DataMap.index, hmiss, string,
          Option.getD_none]
        rfl
      · intro hempty hmiss
        simp only [hempty, ne_eq, not_true_eq_false, if_false, defaultAPIKeyKey,
          DataMap.index, hmiss, string, Option.getD_none]
        rfl

/-- Witness of C15: over a store whose secrets have no key, the TPP issuer
gets an empty user and an empty password, and the Cloud issuer an empty API
key. -/
theorem C15_missing_keys_give_empty_strings_witness :
    (∃ (cfg : Config) (auth : Authentication),
      configForIssuer (exampleIssuer (some exampleTPP) none) emptySecretLister
        (ascii "default") = (some cfg, none) ∧
      cfg.Credentials = some auth ∧
      auth.User = ascii "" ∧
      auth.Password = ascii "") ∧
    (∃ (cfg : Config) (auth : Authentication),
      configForIssuer (exampleIssuer none (some exampleCloud)) emptySecretLister
        (ascii "default") = (some cfg, none) ∧
      cfg.Credentials = some auth ∧
      auth.APIKey = ascii "") := by
  refine ⟨?_, ?_⟩
  · obtain ⟨cfg, auth, hcfg, hauth, htpp, -⟩ :=
      C15_missing_keys_give_empty_strings (exampleIssuer (some exampleTPP) none)
        emptySecretLister (ascii "default") (ascii "tpp-creds") emptySecret
        (Or.inl ⟨exampleTPP, rfl, rfl⟩) rfl
    exact ⟨cfg, auth, hcfg, hauth, (htpp exampleTPP rfl).1 rfl, (htpp exampleTPP rfl).2 rfl⟩
  · obtain ⟨cfg, auth, hcfg, hauth, -, hcloud⟩ :=
      C15_missing_keys_give_empty_strings (exampleIssuer none (some exampleCloud))
        emptySecretLister (ascii "default") (ascii "cloud-key") emptySecret
        (Or.inr ⟨rfl, exampleCloud, rfl, rfl⟩) rfl
    exact ⟨cfg, auth, hcfg, hauth, (hcloud exampleCloud rfl rfl).1 (by decide) rfl⟩

/-- C17: for every spec and namespace and any two listers that give the same
result for the lookup of the referenced secret in that namespace
(`credentialsRef.name` when the TPP block is present, otherwise
`apiKeySecretRef.name` when the Cloud block is present), `configForIssuer`
returns equal results, whatever the two stores hold under other names and in
other namespaces. -/
theorem C17_depends_on_referenced_secret_only (iss : GenericIssuer)
    (lister1 lister2 : SecretLister) (resourceNamespace : GoString)
    (hTPP : ∀ tpp, iss.GetSpec.Venafi.TPP = some tpp →
      lister1 resourceNamespace tpp.CredentialsRef.Name =
        lister2 resourceNamespace tpp.CredentialsRef.Name)
    (hCloud : ∀ cloud, iss.GetSpec.Venafi.TPP = none → iss.GetSpec.Venafi.Cloud = some cloud →
      lister1 resourceNamespace cloud.APIKeySecretRef.Name =
        lister2 resourceNamespace cloud.APIKeySecretRef.Name) :
    configForIssuer iss lister1 resourceNamespace =
      configForIssuer iss lister2 resourceNamespace := by
  rcases hT : iss.GetSpec.Venafi.TPP with _ | tpp
  · rcases hC : iss.GetSpec.Venafi.Cloud with _ | cloud
    · simp only [configForIssuer, hT, hC]
    · simp only [configForIssuer, hT, hC, hCloud cloud hT hC]
  · simp only [configForIssuer, hT, hTPP tpp hT]

/-- Witness of C17: `exampleLister` and the lister that holds `tpp-creds`
everywhere differ in the namespace `other` and agree on `tpp-creds` of
`default`, and the TPP issuer gets the same result over both. -/
theorem C17_depends_on_referenced_secret_only_witness :
    (exampleLister (ascii "other") (ascii "tpp-creds")).toBool = false ∧
    (tppCredsEverywhere (ascii "other") (ascii "tpp-creds")).toBool = true ∧
    configForIssuer (exampleIssuer (some exampleTPP) none) exampleLister (ascii "default") =
      configForIssuer (exampleIssuer (some exampleTPP) none) tppCredsEverywhere
        (ascii "default") :=
  ⟨rfl, rfl,
    C17_depends_on_referenced_secret_only (exampleIssuer (some exampleTPP) none) exampleLister
      tppCredsEverywhere (ascii "default")
      (fun _ h => Option.some.inj h ▸ rfl) (fun _ h => nomatch h)⟩

/-- C18: for every spec and any two listers under which the referenced secret
exists, `configForIssuer` returns equal results when, for a TPP spec, the two
secrets have the same values at the keys `username` and `password`, and when,
for a Cloud spec, they have the same value at the selected key; and the result
for a TPP spec does not change with `credentialsRef.key`. -/
theorem C18_reads_selected_keys_only (iss : GenericIssuer) (lister1 lister2 : SecretLister)
    (resourceNamespace : GoString) (name : GoString) (secret1 secret2 : Secret)
    (hRef : (∃ tpp, iss.GetSpec.Venafi.TPP = some tpp ∧ name = tpp.CredentialsRef.Name) ∨
      (iss.GetSpec.Venafi.TPP = none ∧
        ∃ cloud, iss.GetSpec.Venafi.Cloud = some cloud ∧ name = cloud.APIKeySecretRef.Name))
    (hGet1 : lister1 resourceNamespace name = .ok secret1)
    (hGet2 : lister2 resourceNamespace name = .ok secret2)
    (hTPP : ∀ tpp, iss.GetSpec.Venafi.TPP = some tpp →
      secret1.Data.index (ascii "username") = secret2.Data.index (ascii "username") ∧
      secret1.Data.index (ascii "password") = secret2.Data.index (ascii "password"))
    (hCloud : ∀ cloud, iss.GetSpec.Venafi.TPP = none → iss.GetSpec.Venafi.Cloud = some cloud →
      secret1.Data.index
          (if cloud.APIKeySecretRef.Key ≠ ascii "" then cloud.APIKeySecretRef.Key
            else ascii "api-key") =
        secret2.Data.index
          (if cloud.APIKeySecretRef.Key ≠ ascii "" then cloud.APIKeySecretRef.Key
            else ascii "api-key")) :
    configForIssuer iss lister1 resourceNamespace =
      configForIssuer iss lister2 resourceNamespace ∧
    (∀ tpp key, iss.GetSpec.Venafi.TPP = some tpp →
      configForIssuer
          { iss with Spec := { Venafi := { iss.Spec.Venafi with
              TPP := some { tpp with
                CredentialsRef := { Name := tpp.CredentialsRef.Name, Key := key } } } } }
          lister1 resourceNamespace =
        configForIssuer iss lister1 resourceNamespace) := by
  refine ⟨?_, ?_⟩
  · rcases hRef with ⟨tpp, hT, hName⟩ | ⟨hT, cloud, hC, hName⟩
    · subst hName
      obtain ⟨hu, hp⟩ := hTPP tpp hT
      simp only [configForIssuer, hT, hGet1, hGet2, tppUsernameKey, tppPasswordKey, hu, hp]
    · subst hName
      have hk := hCloud cloud hT hC
      simp only [configForIssuer, hT, hC, hGet1, hGet2, defaultAPIKeyKey, hk]
  · intro tpp key hT
    have hT0 : iss.Spec.Venafi.TPP = some tpp := hT
    simp only [configForIssuer, GenericIssuer.GetSpec, hT0]

/-- Witness of C18: a secret with one more key than `tpp-creds` gives the TPP
issuer the result of `tpp-creds`, and a secret that has only the key `token`
of `cloud-key` gives the Cloud issuer the result of `cloud-key`. -/
theorem C18_reads_selected_keys_only_witness :
    tppCredsExtra.Data (ascii "extra") ≠ tppCreds.Data (ascii "extra") ∧
    configForIssuer (exampleIssuer (some exampleTPP) none) exampleLister (ascii "default") =
      configForIssuer (exampleIssuer (some exampleTPP) none) (fun _ _ => .ok tppCredsExtra)
        (ascii "default") ∧
    cloudKeyTokenOnly.Data (ascii "api-key") ≠ cloudKey.Data (ascii "api-key") ∧
    configForIssuer (exampleIssuer none (some exampleCloud)) exampleLister (ascii "default") =
      configForIssuer (exampleIssuer none (some exampleCloud))
        (fun _ _ => .ok cloudKeyTokenOnly) (ascii "default") :=
  ⟨by decide,
    (C18_reads_selected_keys_only (exampleIssuer (some exampleTPP) none) exampleLister
      (fun _ _ => .ok tppCredsExtra) (ascii "default") (ascii "tpp-creds") tppCreds
      tppCredsExtra (Or.inl ⟨exampleTPP, rfl, rfl⟩) rfl rfl (fun _ _ => ⟨rfl, rfl⟩)
      (fun _ h => nomatch h)).1,
    by decide,
    (C18_reads_selected_keys_only (exampleIssuer none (some exampleCloud)) exampleLister
      (fun _ _ => .ok cloudKeyTokenOnly) (ascii "default") (ascii "cloud-key") cloudKey
      cloudKeyTokenOnly (Or.inr ⟨rfl, exampleCloud, rfl, rfl⟩) rfl rfl (fun _ h => nomatch h)
      (fun _ _ h => Option.some.inj h ▸ rfl)).1⟩

end venafi
